import Mathlib

/-!
Shallow embedding of `custom_components/ecole_directe/coordinator.py`
(the `EDDataUpdateCoordinator` class: `_async_update_data`, `compare_data`,
`trigger_event`), together with models of the external collaborators the
coordinator calls (session client, per-category fetch functions, record
formatter), which live in repository files not present under `src/` and are
therefore modelled from the spec.

Modelling choices:
* Raw records and formatted records are Python objects/dicts; we use the
  concrete carrier `List (String × String)` (an association list of named
  fields).  Raw records are only ever passed to the caller-supplied
  `format_func`, so this choice loses no generality for the coordinator.
* Python exceptions raised by a fetch call or by a dict lookup (`KeyError`)
  are modelled with `Except Unit`; a `try/except` block is modelled by
  matching on the `Except` value.
* Logging (`_LOGGER.error` / `_LOGGER.warning`) has no data-flow effect and
  is not modelled.
* Events fired on the platform bus (`self.hass.bus.fire`) are collected into
  an explicit list, in firing order.
-/

/-- A mapping of named fields, as produced by a record formatting function
(a Python `dict` from field name to display value). -/
abbrev Fields := List (String × String)

/-- The carrier for raw category records (homework / grade / lesson items).
The coordinator treats them as opaque and only passes them to `format_func`. -/
abbrev EDRecord := Fields

/-- Python dict lookup `fields[key]` on a formatted record: the value bound
to `key`, or `none` when the key is absent (Python raises `KeyError`). -/
def lookupField (fields : Fields) (key : String) : Option String :=
  (fields.find? (fun p => p.1 == key)).map (fun p => p.2)

/-- Modelled from the spec: an `EDEleve` (a monitored student) from the
missing helper module `ecole_directe_helper.py`: a display name and the set
of enabled module tags. -/
structure EDEleve where
  fullname : String
  modules : List String
deriving DecidableEq

/-- Modelled from the spec: `eleve.get_fullname()` returns the display name. -/
def EDEleve.get_fullname (e : EDEleve) : String :=
  e.fullname

/-- Modelled from the spec: `eleve.get_fullname_lower()` returns the display
name normalized to lowercase, used as the snapshot key prefix (lowercasing
applied character by character, as `str.lower()` does on ASCII names). -/
def EDEleve.get_fullname_lower (e : EDEleve) : String :=
  { data := e.fullname.data.map Char.toLower }

/-- Modelled from the spec: a `Session` returned by
`get_ecoledirecte_session`: a token and the collection of student objects. -/
structure Session where
  token : String
  eleves : List EDEleve
deriving DecidableEq

/-- The snapshot assembled by one tick (`self.data`): the `"session"` entry
holding the current `Session`, and the category entries, a Python dict from
keys `f"{eleve.get_fullname_lower()}_{category}"` to record sequences,
modelled as an insertion-ordered association list. -/
structure Snapshot where
  session : Session
  entries : List (String × List EDRecord)
deriving DecidableEq

/-- Python dict membership / lookup `data[key]` on the category entries of a
snapshot. -/
def getEntry (entries : List (String × List EDRecord)) (key : String) :
    Option (List EDRecord) :=
  (entries.find? (fun p => p.1 == key)).map (fun p => p.2)

/-- Python dict assignment `data[key] = value`: overwrite in place when the
key is present, otherwise append (insertion order preserved). -/
def setEntry (entries : List (String × List EDRecord)) (key : String)
    (value : List EDRecord) : List (String × List EDRecord) :=
  if entries.any (fun p => p.1 == key) then
    entries.map (fun p => if p.1 == key then (key, value) else p)
  else
    entries ++ [(key, value)]

/-- A notification event fired on the platform bus by `trigger_event`. -/
structure Event where
  child_name : String
  type : String
  data : Fields
deriving DecidableEq

/-- `trigger_event` (coordinator.py lines 218-226): builds the payload
`{"child_name": eleve.get_fullname(), "type": event_type, "data": event_data}`
fired on the bus under the fixed event type. -/
def trigger_event (event_type : String) (eleve : EDEleve) (event_data : Fields) :
    Event :=
  { child_name := eleve.get_fullname, type := event_type, data := event_data }

/-- The Python dict comprehension
`{key: format_func(item)[key] for key in compare_keys}` applied to the
formatted fields of one record: the projection of `fields` onto the listed
keys, in key order; a missing key raises `KeyError` (modelled as `.error`). -/
def projFields (fields : Fields) : List String → Except Unit (List String)
  | [] => Except.ok []
  | k :: ks =>
    match lookupField fields k with
    | none => Except.error ()
    | some v =>
      match projFields fields ks with
      | Except.error e => Except.error e
      | Except.ok vs => Except.ok (v :: vs)

/-- Projection of one raw record: format it, then project onto the
comparison keys. -/
def projRecord (format_func : EDRecord → Fields) (compare_keys : List String)
    (r : EDRecord) : Except Unit (List String) :=
  projFields (format_func r) compare_keys

/-- The inner loop of `compare_data` (lines 199-204): scan the previous
sub-collection for a record whose projection onto the comparison keys equals
the current item's projection; the left projection is evaluated first, and
any `KeyError` during either projection aborts with an exception. -/
def searchPrevious (format_func : EDRecord → Fields) (compare_keys : List String)
    (item : EDRecord) : List EDRecord → Except Unit Bool
  | [] => Except.ok false
  | p :: ps =>
    match projRecord format_func compare_keys p with
    | Except.error e => Except.error e
    | Except.ok pp =>
      match projRecord format_func compare_keys item with
      | Except.error e => Except.error e
      | Except.ok ip =>
        if pp = ip then Except.ok true
        else searchPrevious format_func compare_keys item ps

/-- The outer loop of `compare_data` (lines 196-206): collect, in order, the
current records found in no previous record (`not_found_items`); an exception
anywhere aborts the whole scan before any notification is emitted. -/
def collectNew (format_func : EDRecord → Fields) (compare_keys : List String)
    (previous_items : List EDRecord) : List EDRecord → Except Unit (List EDRecord)
  | [] => Except.ok []
  | i :: is =>
    match searchPrevious format_func compare_keys i previous_items with
    | Except.error e => Except.error e
    | Except.ok true => collectNew format_func compare_keys previous_items is
    | Except.ok false =>
      match collectNew format_func compare_keys previous_items is with
      | Except.error e => Except.error e
      | Except.ok rest => Except.ok (i :: rest)

/-- `compare_data` (coordinator.py lines 179-216).  Guards: `previous_data`
not `None`, `data_key` present in both `previous_data` and `self.data`.
Then the scan collects the new items and one event is fired per new item, in
scan order; any exception is caught (`except Exception`) and logged, yielding
no events.  Returns the list of fired events. -/
def compare_data (selfData : Snapshot) (previous_data : Option Snapshot)
    (data_key : String) (compare_keys : List String) (event_type : String)
    (eleve : EDEleve) (format_func : EDRecord → Fields) : List Event :=
  match previous_data with
  | none => []
  | some prev =>
    match getEntry prev.entries data_key, getEntry selfData.entries data_key with
    | some previous_items, some current_items =>
      match collectNew format_func compare_keys previous_items current_items with
      | Except.ok not_found_items =>
        not_found_items.map (fun r => trigger_event event_type eleve (format_func r))
      | Except.error _ => []
    | some _, none => []
    | none, _ => []

/-- The academic-year label (coordinator.py lines 71-75):
`f"{current_year-1}-{current_year}"` when the current calendar year is even,
`f"{current_year}-{current_year+1}"` when odd. -/
def yearData (current_year : Int) : String :=
  if current_year % 2 == 0 then
    toString (current_year - 1) ++ "-" ++ toString current_year
  else
    toString current_year ++ "-" ++ toString (current_year + 1)

example : yearData 2024 = "2023-2024" := by decide
example : yearData 2025 = "2025-2026" := by decide

/-- Modelled from the spec: the external collaborators called by
`_async_update_data` — the session client (`get_ecoledirecte_session`, which
may return nothing), the per-category fetch functions (which may raise,
modelled by `Except Unit`), and the grade formatter `format_grade` from the
missing `ecole_directe_formatter.py` — together with the ambient values the
coordinator reads (current calendar year, configuration directory).  All are
opaque to the coordinator. -/
structure Env where
  get_session : Option Session
  get_homeworks : String → EDEleve → String → Except Unit (List EDRecord)
  get_grades : String → EDEleve → String → String → Except Unit (List EDRecord)
  get_lessons : String → EDEleve → String → String → Except Unit (List EDRecord)
  format_grade : EDRecord → Fields
  current_year : Int
  config_dir : String

/-- One observable step of a tick, recorded in execution order: a fetch
attempt for a category of an entity (with its success flag), or an
invocation of the differ `compare_data` for a category of an entity. -/
inductive TickAction where
  | fetch (category : String) (entity : String) (ok : Bool)
  | diffInvoke (category : String) (entity : String)
deriving DecidableEq

/-- The state accumulated while the per-eleve loop of `_async_update_data`
runs: the snapshot under assembly (`self.data`), the events fired so far,
and the trace of fetch/diff actions in execution order. -/
structure TickAcc where
  snap : Snapshot
  events : List Event
  trace : List TickAction
deriving DecidableEq

/-- The `"CAHIER_DE_TEXTES"` block of the per-eleve loop (lines 93-103):
fetch homeworks and store them under `{name}_homework`; on exception, log a
warning and leave the key untouched. -/
def homeworkBlock (env : Env) (session : Session) (acc : TickAcc)
    (eleve : EDEleve) : TickAcc :=
  if "CAHIER_DE_TEXTES" ∈ eleve.modules then
    match env.get_homeworks session.token eleve env.config_dir with
    | Except.ok hw =>
      { acc with
        snap := { acc.snap with
          entries := setEntry acc.snap.entries (eleve.get_fullname_lower ++ "_homework") hw }
        trace := acc.trace ++ [TickAction.fetch "homework" eleve.get_fullname_lower true] }
    | Except.error _ =>
      { acc with trace := acc.trace ++ [TickAction.fetch "homework" eleve.get_fullname_lower false] }
  else acc

/-- The `"NOTES"` block of the per-eleve loop (lines 104-124): fetch grades
for the academic year, store them under `{name}_grades`, then invoke
`compare_data` against the previous snapshot on comparison keys
`["date", "subject", "grade_out_of"]` with event type `"new_grade"`; an
exception in the fetch leaves the key untouched and skips the diff. -/
def gradesBlock (env : Env) (previous_data : Option Snapshot) (year_data : String)
    (session : Session) (acc : TickAcc) (eleve : EDEleve) : TickAcc :=
  if "NOTES" ∈ eleve.modules then
    match env.get_grades session.token eleve year_data env.config_dir with
    | Except.ok gr =>
      let snap' : Snapshot :=
        { acc.snap with
          entries := setEntry acc.snap.entries (eleve.get_fullname_lower ++ "_grades") gr }
      let evs := compare_data snap' previous_data
        (eleve.get_fullname_lower ++ "_grades")
        ["date", "subject", "grade_out_of"] "new_grade" eleve env.format_grade
      { snap := snap'
        events := acc.events ++ evs
        trace := acc.trace ++
          [TickAction.fetch "grades" eleve.get_fullname_lower true,
           TickAction.diffInvoke "grades" eleve.get_fullname_lower] }
    | Except.error _ =>
      { acc with trace := acc.trace ++ [TickAction.fetch "grades" eleve.get_fullname_lower false] }
  else acc

/-- The fixed date window of the `"EDT"` block (lines 78-79). -/
def edtDateStart : String := "2024-05-02"

/-- The fixed date window of the `"EDT"` block (lines 78-79). -/
def edtDateEnd : String := "2024-05-03"

/-- The `"EDT"` block of the per-eleve loop (lines 126-135): fetch lessons
for the fixed date window and store them under `{name}_lessons`; on
exception, leave the key untouched. -/
def lessonsBlock (env : Env) (session : Session) (acc : TickAcc)
    (eleve : EDEleve) : TickAcc :=
  if "EDT" ∈ eleve.modules then
    match env.get_lessons session.token eleve edtDateStart edtDateEnd with
    | Except.ok ls =>
      { acc with
        snap := { acc.snap with
          entries := setEntry acc.snap.entries (eleve.get_fullname_lower ++ "_lessons") ls }
        trace := acc.trace ++ [TickAction.fetch "lessons" eleve.get_fullname_lower true] }
    | Except.error _ =>
      { acc with trace := acc.trace ++ [TickAction.fetch "lessons" eleve.get_fullname_lower false] }
  else acc

/-- The body of `for eleve in session.eleves` (lines 92-135): the homework,
grades (with diff), and lessons blocks, in source order. -/
def processEleve (env : Env) (previous_data : Option Snapshot) (year_data : String)
    (session : Session) (acc : TickAcc) (eleve : EDEleve) : TickAcc :=
  lessonsBlock env session
    (gradesBlock env previous_data year_data session
      (homeworkBlock env session acc eleve) eleve) eleve

/-- The outcome of one tick of `_async_update_data`: the coordinator state
`self.data` after the call, the method's return value, and the events and
actions produced during the tick. -/
structure TickResult where
  newSelfData : Option Snapshot
  returned : Option Snapshot
  events : List Event
  trace : List TickAction
deriving DecidableEq

/-- `_async_update_data` (coordinator.py lines 53-177).  `selfData` is the
coordinator state `self.data` before the tick (the previous snapshot, or
`none` on the first tick); `previous_data` is its copy.  When the session
client returns nothing, the tick aborts: an error is logged, `self.data` is
left untouched and `None` is returned.  Otherwise `self.data` is re-created
with the `"session"` entry, the academic-year label is derived, and each
eleve is processed in order; the assembled snapshot is returned. -/
def updateData (env : Env) (selfData : Option Snapshot) : TickResult :=
  let previous_data := selfData
  match env.get_session with
  | none => { newSelfData := selfData, returned := none, events := [], trace := [] }
  | some session =>
    let year_data := yearData env.current_year
    let init : TickAcc := { snap := { session := session, entries := [] }, events := [], trace := [] }
    let final := session.eleves.foldl
      (processEleve env previous_data year_data session) init
    { newSelfData := some final.snap
      returned := some final.snap
      events := final.events
      trace := final.trace }

/-- The comparison keys used for the grades diff (line 118). -/
def gradeCompareKeys : List String := ["date", "subject", "grade_out_of"]

/-- The three snapshot keys an eleve can contribute (whether or not the
corresponding module is enabled or the fetch succeeds). -/
def eleveKeys (e : EDEleve) : List String :=
  [e.get_fullname_lower ++ "_homework",
   e.get_fullname_lower ++ "_grades",
   e.get_fullname_lower ++ "_lessons"]

/-- The homework entry one eleve contributes to the snapshot (an entry only
when the module is enabled and the fetch succeeds). -/
def hwEntriesChunk (env : Env) (session : Session) (e : EDEleve) :
    List (String × List EDRecord) :=
  if "CAHIER_DE_TEXTES" ∈ e.modules then
    match env.get_homeworks session.token e env.config_dir with
    | Except.ok hw => [(e.get_fullname_lower ++ "_homework", hw)]
    | Except.error _ => []
  else []

/-- The grades entry one eleve contributes to the snapshot. -/
def grEntriesChunk (env : Env) (year_data : String) (session : Session)
    (e : EDEleve) : List (String × List EDRecord) :=
  if "NOTES" ∈ e.modules then
    match env.get_grades session.token e year_data env.config_dir with
    | Except.ok gr => [(e.get_fullname_lower ++ "_grades", gr)]
    | Except.error _ => []
  else []

/-- The lessons entry one eleve contributes to the snapshot. -/
def lsEntriesChunk (env : Env) (session : Session) (e : EDEleve) :
    List (String × List EDRecord) :=
  if "EDT" ∈ e.modules then
    match env.get_lessons session.token e edtDateStart edtDateEnd with
    | Except.ok ls => [(e.get_fullname_lower ++ "_lessons", ls)]
    | Except.error _ => []
  else []

/-- The category entries one eleve contributes to the snapshot: one entry
per enabled module whose fetch succeeds, in source order. -/
def eleveEntries (env : Env) (year_data : String) (session : Session)
    (e : EDEleve) : List (String × List EDRecord) :=
  hwEntriesChunk env session e ++ grEntriesChunk env year_data session e ++
    lsEntriesChunk env session e

/-- The events one eleve contributes to the tick: the grades diff against
the previous snapshot, run on that eleve's freshly fetched grades alone. -/
def eleveEvents (env : Env) (previous_data : Option Snapshot) (year_data : String)
    (session : Session) (e : EDEleve) : List Event :=
  if "NOTES" ∈ e.modules then
    match env.get_grades session.token e year_data env.config_dir with
    | Except.ok gr =>
      compare_data { session := session, entries := [(e.get_fullname_lower ++ "_grades", gr)] }
        previous_data (e.get_fullname_lower ++ "_grades") gradeCompareKeys
        "new_grade" e env.format_grade
    | Except.error _ => []
  else []

/-- The trace actions of the homework block of one eleve. -/
def hwTraceChunk (env : Env) (session : Session) (e : EDEleve) : List TickAction :=
  if "CAHIER_DE_TEXTES" ∈ e.modules then
    [TickAction.fetch "homework" e.get_fullname_lower
      (env.get_homeworks session.token e env.config_dir).isOk]
  else []

/-- The trace actions of the grades block of one eleve: the fetch, followed
on success by the diff invocation. -/
def grTraceChunk (env : Env) (year_data : String) (session : Session)
    (e : EDEleve) : List TickAction :=
  if "NOTES" ∈ e.modules then
    match env.get_grades session.token e year_data env.config_dir with
    | Except.ok _ =>
      [TickAction.fetch "grades" e.get_fullname_lower true,
       TickAction.diffInvoke "grades" e.get_fullname_lower]
    | Except.error _ => [TickAction.fetch "grades" e.get_fullname_lower false]
  else []

/-- The trace actions of the lessons block of one eleve. -/
def lsTraceChunk (env : Env) (session : Session) (e : EDEleve) : List TickAction :=
  if "EDT" ∈ e.modules then
    [TickAction.fetch "lessons" e.get_fullname_lower
      (env.get_lessons session.token e edtDateStart edtDateEnd).isOk]
  else []

/-- The actions one eleve contributes to the tick trace, in source order:
homework fetch, grades fetch followed (on success) by the diff invocation,
lessons fetch. -/
def eleveTrace (env : Env) (year_data : String) (session : Session)
    (e : EDEleve) : List TickAction :=
  hwTraceChunk env session e ++ grTraceChunk env year_data session e ++
    lsTraceChunk env session e

/-- Two consecutive runs of the differ on the same `(previous, current)`
snapshot pair, with no update of the previous snapshot in between; the pair
collects the events of each run. -/
def runDiffTwice (selfData : Snapshot) (previous_data : Option Snapshot)
    (data_key : String) (compare_keys : List String) (event_type : String)
    (eleve : EDEleve) (format_func : EDRecord → Fields) : List Event × List Event :=
  let first := compare_data selfData previous_data data_key compare_keys
    event_type eleve format_func
  let second := compare_data selfData previous_data data_key compare_keys
    event_type eleve format_func
  (first, second)

/-- Concrete grade record from the spec's new-record-detection example
(previous tick). -/
def exGrade1 : EDRecord :=
  [("date", "2024-01-01"), ("subject", "MATH"), ("grade_out_of", "20"), ("value", "10")]

/-- Concrete grade record from the spec's new-record-detection example
(the new record of the current tick). -/
def exGrade2 : EDRecord :=
  [("date", "2024-01-02"), ("subject", "MATH"), ("grade_out_of", "20"), ("value", "15")]

/-- Concrete student used by the witnesses. -/
def exEleve : EDEleve :=
  { fullname := "Jane Doe", modules := ["CAHIER_DE_TEXTES", "NOTES", "EDT"] }

/-- Concrete session used by the witnesses. -/
def exSession : Session := { token := "tok", eleves := [exEleve] }

/-- Concrete identity formatter used by the witnesses: records are already
field mappings. -/
def exFormat : EDRecord → Fields := fun r => r

/-- Concrete environment whose session acquisition returns none. -/
def edC1Env : Env :=
  { get_session := none
    get_homeworks := fun _ _ _ => Except.error ()
    get_grades := fun _ _ _ _ => Except.error ()
    get_lessons := fun _ _ _ _ => Except.error ()
    format_grade := exFormat
    current_year := 2024
    config_dir := "/config" }
/-- Concrete previous snapshot for the C1 witness. -/
def edC1Prev : Snapshot :=
  { session := exSession, entries := [("jane doe_grades", [exGrade1])] }
/-- Concrete record for the C7 witness: same date as `c7Prev`, different
comment. -/
def c7Item : EDRecord := [("date", "2024-01-01"), ("comment", "rewritten")]
/-- Concrete previous record for the C7 witness. -/
def c7Prev : EDRecord := [("date", "2024-01-01"), ("comment", "original")]
/-- Alternative formatter for the C7 witness: prefixes an extra field but
agrees with the identity formatter on the key `"date"`. -/
def c7AltFormat : EDRecord → Fields := fun r => ("comment", "ignored") :: r
/-- Concrete current records for the C10 witness: two occurrences with the
same date, differing outside the comparison key. -/
def c10CurA : EDRecord := [("date", "2024-01-05"), ("value", "11")]
/-- Concrete current records for the C10 witness (second occurrence). -/
def c10CurB : EDRecord := [("date", "2024-01-05"), ("value", "12")]

/-- Second concrete student for the C3 witness, with only grades enabled. -/
def edC3Eleve2 : EDEleve := { fullname := "John Roe", modules := ["NOTES"] }

/-- Concrete session for the C3 witness: two students. -/
def edC3Session : Session := { token := "tok", eleves := [exEleve, edC3Eleve2] }

/-- Concrete environment for the C3 witness: the homework fetch raises for
everyone, the grades fetch raises for the second student only, lessons
succeed. -/
def edC3Env : Env :=
  { get_session := some edC3Session
    get_homeworks := fun _ _ _ => Except.error ()
    get_grades := fun _ e _ _ =>
      if e = edC3Eleve2 then Except.error () else Except.ok [exGrade1, exGrade2]
    get_lessons := fun _ _ _ _ => Except.ok []
    format_grade := exFormat
    current_year := 2025
    config_dir := "/config" }

/-- Concrete previous snapshot for the C3 witness. -/
def edC3Prev : Snapshot :=
  { session := edC3Session, entries := [("jane doe_grades", [exGrade1])] }

/-- Concrete environment for the C6 counterexample: one student with all
three modules enabled and all fetches succeeding. -/
def edC6Env : Env :=
  { get_session := some exSession
    get_homeworks := fun _ _ _ => Except.ok [exGrade1]
    get_grades := fun _ _ _ _ => Except.ok [exGrade1]
    get_lessons := fun _ _ _ _ => Except.ok []
    format_grade := exFormat
    current_year := 2025
    config_dir := "/config" }

/-- Malformed current record for the C4 witness: lacks the `subject` and
`grade_out_of` fields, so its projection raises `KeyError`. -/
def c4Bad : EDRecord := [("date", "2024-02-02")]

/-- Variant of the C6 environment with a degenerate grade formatter, used
to witness that the formatter cannot influence the snapshot. -/
def edC4AltEnv : Env :=
  { get_session := some exSession
    get_homeworks := fun _ _ _ => Except.ok [exGrade1]
    get_grades := fun _ _ _ _ => Except.ok [exGrade1]
    get_lessons := fun _ _ _ _ => Except.ok []
    format_grade := fun _ => []
    current_year := 2025
    config_dir := "/config" }

deriving instance DecidableEq for Except

/-- An `Except` value whose `isOk` flag is set is an `ok`. -/
lemma exists_ok_of_isOk {ε α : Type} {e : Except ε α} (h : e.isOk = true) :
    ∃ v, e = Except.ok v := by
  cases e with
  | error a => simp [Except.isOk, Except.toBool] at h
  | ok v => exact ⟨v, rfl⟩

/-- When every projection involved is defined, the inner scan of
`compare_data` computes exactly "some previous record has the same projected
comparison-key values as the current item". -/
lemma searchPrevious_eq_any (format_func : EDRecord → Fields)
    (compare_keys : List String) (item : EDRecord)
    (hitem : (projRecord format_func compare_keys item).isOk = true)
    (prev : List EDRecord)
    (hprev : ∀ p ∈ prev, (projRecord format_func compare_keys p).isOk = true) :
    searchPrevious format_func compare_keys item prev =
      Except.ok (prev.any (fun p =>
        projRecord format_func compare_keys p == projRecord format_func compare_keys item)) := by
  induction prev with
  | nil => rfl
  | cons p ps ih =>
    obtain ⟨pp, hpp⟩ := exists_ok_of_isOk (hprev p (by simp))
    obtain ⟨ip, hip⟩ := exists_ok_of_isOk hitem
    have ihp := ih (fun q hq => hprev q (by simp [hq]))
    by_cases h : pp = ip
    · simp [searchPrevious, hpp, hip, h]
    · simp [searchPrevious, hpp, hip, h, ihp]

/-- When every projection involved is defined, the outer scan of
`compare_data` computes exactly the sub-list of current records, in order,
whose projection matches no previous record. -/
lemma collectNew_eq_filter (format_func : EDRecord → Fields)
    (compare_keys : List String) (prev : List EDRecord)
    (hprev : ∀ p ∈ prev, (projRecord format_func compare_keys p).isOk = true)
    (cur : List EDRecord)
    (hcur : ∀ i ∈ cur, (projRecord format_func compare_keys i).isOk = true) :
    collectNew format_func compare_keys prev cur =
      Except.ok (cur.filter (fun i => !(prev.any (fun p =>
        projRecord format_func compare_keys p == projRecord format_func compare_keys i)))) := by
  induction cur with
  | nil => rfl
  | cons i is ih =>
    have hs := searchPrevious_eq_any format_func compare_keys i
      (hcur i (by simp)) prev hprev
    have ihi := ih (fun q hq => hcur q (by simp [hq]))
    rcases ha : prev.any (fun p =>
        projRecord format_func compare_keys p == projRecord format_func compare_keys i) with _ | _
    · simp [collectNew, hs, ha, ihi, List.filter_cons]
    · simp [collectNew, hs, ha, ihi, List.filter_cons]

/-- When every projection involved is defined, `compare_data` fires exactly
one event per current record whose projected comparison-key values match no
previous record, in the order of the current sub-collection. -/
lemma compare_data_eq_filter (selfData : Snapshot) (prev : Snapshot)
    (data_key : String) (compare_keys : List String) (event_type : String)
    (eleve : EDEleve) (format_func : EDRecord → Fields)
    (previous_items current_items : List EDRecord)
    (hp : getEntry prev.entries data_key = some previous_items)
    (hc : getEntry selfData.entries data_key = some current_items)
    (hprev : ∀ p ∈ previous_items, (projRecord format_func compare_keys p).isOk = true)
    (hcur : ∀ i ∈ current_items, (projRecord format_func compare_keys i).isOk = true) :
    compare_data selfData (some prev) data_key compare_keys event_type eleve format_func =
      (current_items.filter (fun i => !(previous_items.any (fun p =>
          projRecord format_func compare_keys p == projRecord format_func compare_keys i)))).map
        (fun r => trigger_event event_type eleve (format_func r)) := by
  simp only [compare_data, hp, hc,
    collectNew_eq_filter format_func compare_keys previous_items hprev current_items hcur]

/-- Projection only reads the listed keys: two field mappings agreeing on
every comparison key have equal projections. -/
lemma projFields_congr (fl1 fl2 : Fields) :
    ∀ ks : List String, (∀ k ∈ ks, lookupField fl1 k = lookupField fl2 k) →
      projFields fl1 ks = projFields fl2 ks
  | [], _ => rfl
  | k :: ks, h => by
    rw [projFields, projFields, h k (by simp),
      projFields_congr fl1 fl2 ks (fun k' hk' => h k' (by simp [hk']))]

/-- The inner scan depends on the formatting function only through the
projections onto the comparison keys. -/
lemma searchPrevious_congr (f1 f2 : EDRecord → Fields) (ks : List String)
    (hproj : ∀ r, projRecord f1 ks r = projRecord f2 ks r) (item : EDRecord)
    (prev : List EDRecord) :
    searchPrevious f1 ks item prev = searchPrevious f2 ks item prev := by
  induction prev with
  | nil => rfl
  | cons p ps ih => simp only [searchPrevious, hproj, ih]

/-- The classification of current records as new depends on the formatting
function only through the projections onto the comparison keys. -/
lemma collectNew_congr (f1 f2 : EDRecord → Fields) (ks : List String)
    (hproj : ∀ r, projRecord f1 ks r = projRecord f2 ks r)
    (prev cur : List EDRecord) :
    collectNew f1 ks prev cur = collectNew f2 ks prev cur := by
  induction cur with
  | nil => rfl
  | cons i is ih => simp only [collectNew, searchPrevious_congr f1 f2 ks hproj, ih]

/-- C1: For every tick in which session acquisition returns none, the
refresh operation aborts: no new snapshot is produced (the method returns
`None`), the coordinator state equals the previous state (or none on the
first tick), and no notification is emitted (an error is logged, which the
embedding does not track). -/
theorem ed_c1_session_failure_aborts (env : Env) (selfData : Option Snapshot)
    (h : env.get_session = none) :
    updateData env selfData =
      { newSelfData := selfData, returned := none, events := [], trace := [] } := by
  simp [updateData, h]



/-- Witness for C1 at a concrete failing environment and a concrete
previous snapshot. -/
theorem ed_c1_witness :
    updateData edC1Env (some edC1Prev) =
      { newSelfData := some edC1Prev, returned := none, events := [], trace := [] } :=
  ed_c1_session_failure_aborts edC1Env (some edC1Prev) rfl

/-- C2: When every projection involved is defined, the differ emits exactly
one notification per record of the current sub-collection whose formatted
values projected onto the comparison keys match no record of the previous
sub-collection, in the order those records appear in the current
sub-collection (the spec's concrete two-grade example is the witness
`ed_c2_witness`). -/
theorem ed_c2_new_record_notifications (selfData prev : Snapshot)
    (data_key : String) (compare_keys : List String) (event_type : String)
    (eleve : EDEleve) (format_func : EDRecord → Fields)
    (previous_items current_items : List EDRecord)
    (hp : getEntry prev.entries data_key = some previous_items)
    (hc : getEntry selfData.entries data_key = some current_items)
    (hprev : ∀ p ∈ previous_items, (projRecord format_func compare_keys p).isOk = true)
    (hcur : ∀ i ∈ current_items, (projRecord format_func compare_keys i).isOk = true) :
    compare_data selfData (some prev) data_key compare_keys event_type eleve format_func =
      (current_items.filter (fun i => !(previous_items.any (fun p =>
          projRecord format_func compare_keys p == projRecord format_func compare_keys i)))).map
        (fun r => trigger_event event_type eleve (format_func r)) :=
  compare_data_eq_filter selfData prev data_key compare_keys event_type eleve
    format_func previous_items current_items hp hc hprev hcur

/-- Witness for C2: the spec's example — previous holds `exGrade1`, current
holds `exGrade1` and `exGrade2`, comparing on date/subject/grade_out_of
emits exactly one notification, for the second record. -/
theorem ed_c2_witness :
    compare_data { session := exSession, entries := [("jane doe_grades", [exGrade1, exGrade2])] }
      (some { session := exSession, entries := [("jane doe_grades", [exGrade1])] })
      "jane doe_grades" gradeCompareKeys "new_grade" exEleve exFormat =
      [trigger_event "new_grade" exEleve exGrade2] := by
  rw [ed_c2_new_record_notifications _ _ _ _ _ _ _ [exGrade1] [exGrade1, exGrade2]
    (by decide) (by decide) (by decide) (by decide)]
  decide

/-- C5: The differ is a no-op — zero notifications, no error — whenever the
previous snapshot is absent, or the category key is missing from the
previous snapshot, or the category key is missing from the current
snapshot. -/
theorem ed_c5_missing_key_noop :
    (∀ (selfData : Snapshot) (dk : String) (ks : List String) (et : String)
        (el : EDEleve) (f : EDRecord → Fields),
      compare_data selfData none dk ks et el f = []) ∧
    (∀ (selfData prev : Snapshot) (dk : String) (ks : List String) (et : String)
        (el : EDEleve) (f : EDRecord → Fields),
      getEntry prev.entries dk = none →
      compare_data selfData (some prev) dk ks et el f = []) ∧
    (∀ (selfData prev : Snapshot) (dk : String) (ks : List String) (et : String)
        (el : EDEleve) (f : EDRecord → Fields),
      getEntry selfData.entries dk = none →
      compare_data selfData (some prev) dk ks et el f = []) := by
  refine ⟨fun _ _ _ _ _ _ => rfl, ?_, ?_⟩
  · intro selfData prev dk ks et el f h
    simp [compare_data, h]
  · intro selfData prev dk ks et el f h
    rcases hp : getEntry prev.entries dk with _ | v <;> simp [compare_data, h, hp]

/-- Witness for C5 at concrete snapshots: absent previous snapshot, key
absent from the previous snapshot, and key absent from the current
snapshot. -/
theorem ed_c5_witness :
    compare_data edC1Prev none "jane doe_grades" gradeCompareKeys "new_grade" exEleve exFormat = [] ∧
    compare_data edC1Prev (some { session := exSession, entries := [] })
      "jane doe_grades" gradeCompareKeys "new_grade" exEleve exFormat = [] ∧
    compare_data { session := exSession, entries := [] } (some edC1Prev)
      "jane doe_grades" gradeCompareKeys "new_grade" exEleve exFormat = [] :=
  ⟨ed_c5_missing_key_noop.1 edC1Prev "jane doe_grades" gradeCompareKeys "new_grade" exEleve exFormat,
   ed_c5_missing_key_noop.2.1 edC1Prev { session := exSession, entries := [] }
     "jane doe_grades" gradeCompareKeys "new_grade" exEleve exFormat (by decide),
   ed_c5_missing_key_noop.2.2 { session := exSession, entries := [] } edC1Prev
     "jane doe_grades" gradeCompareKeys "new_grade" exEleve exFormat (by decide)⟩

/-- C8: Running the differ twice on the same `(previous, current)` snapshot
pair without updating the previous snapshot produces the same sequence of
notifications both times; the embedding makes explicit that `compare_data`
reads nothing but its arguments (the Python method keeps no memory across
calls beyond `self.data` and `previous_data`, both passed here). -/
theorem ed_c8_diff_idempotent (selfData : Snapshot) (previous_data : Option Snapshot)
    (data_key : String) (compare_keys : List String) (event_type : String)
    (eleve : EDEleve) (format_func : EDRecord → Fields) :
    (runDiffTwice selfData previous_data data_key compare_keys event_type eleve format_func).1 =
      (runDiffTwice selfData previous_data data_key compare_keys event_type eleve format_func).2 :=
  rfl

/-- C9: The academic-year label is `"{year-1}-{year}"` for an even current
calendar year and `"{year}-{year+1}"` for an odd one; in particular
`"2023-2024"` for 2024 and `"2025-2026"` for 2025. -/
theorem ed_c9_year_label :
    (∀ y : Int, y % 2 = 0 → yearData y = toString (y - 1) ++ "-" ++ toString y) ∧
    (∀ y : Int, y % 2 ≠ 0 → yearData y = toString y ++ "-" ++ toString (y + 1)) ∧
    yearData 2024 = "2023-2024" ∧ yearData 2025 = "2025-2026" := by
  refine ⟨?_, ?_, by decide, by decide⟩
  · intro y h
    simp [yearData, h]
  · intro y h
    simp [yearData, h]

/-- Witness for C9 at the concrete years 2024 (even) and 2025 (odd). -/
theorem ed_c9_witness :
    yearData 2024 = toString ((2024 : Int) - 1) ++ "-" ++ toString (2024 : Int) ∧
    yearData 2025 = toString (2025 : Int) ++ "-" ++ toString ((2025 : Int) + 1) :=
  ⟨ed_c9_year_label.1 2024 (by decide), ed_c9_year_label.2.1 2025 (by decide)⟩

/-- C7: (i) a current record matches the previous sub-collection exactly
when some previous record has field-by-field equal formatted values on the
comparison keys; (ii) the classification examines no field outside the
comparison keys: formatters agreeing on the comparison keys classify
identically; (iii) hence current records all matched by previous records
(e.g. identical up to fields outside the comparison keys) emit zero
notifications. -/
theorem ed_c7_identity_by_comparison_keys :
    (∀ (format_func : EDRecord → Fields) (ks : List String) (item : EDRecord)
        (prev : List EDRecord),
      (projRecord format_func ks item).isOk = true →
      (∀ p ∈ prev, (projRecord format_func ks p).isOk = true) →
      (searchPrevious format_func ks item prev = Except.ok true ↔
        ∃ p ∈ prev, projRecord format_func ks p = projRecord format_func ks item)) ∧
    (∀ (f1 f2 : EDRecord → Fields) (ks : List String) (prev cur : List EDRecord),
      (∀ r : EDRecord, ∀ k ∈ ks, lookupField (f1 r) k = lookupField (f2 r) k) →
      collectNew f1 ks prev cur = collectNew f2 ks prev cur) ∧
    (∀ (selfData prev : Snapshot) (dk : String) (ks : List String) (et : String)
        (el : EDEleve) (f : EDRecord → Fields)
        (prevItems curItems : List EDRecord),
      getEntry prev.entries dk = some prevItems →
      getEntry selfData.entries dk = some curItems →
      (∀ p ∈ prevItems, (projRecord f ks p).isOk = true) →
      (∀ i ∈ curItems, ∃ p ∈ prevItems, projRecord f ks p = projRecord f ks i) →
      compare_data selfData (some prev) dk ks et el f = []) := by
  refine ⟨?_, ?_, ?_⟩
  · intro format_func ks item prev hitem hprev
    rw [searchPrevious_eq_any format_func ks item hitem prev hprev]
    simp [List.any_eq_true, beq_iff_eq]
  · intro f1 f2 ks prev cur h
    exact collectNew_congr f1 f2 ks
      (fun r => projFields_congr (f1 r) (f2 r) ks (fun k hk => h r k hk)) prev cur
  · intro selfData prev dk ks et el f prevItems curItems hp hc hprevok hmatch
    have hcurok : ∀ i ∈ curItems, (projRecord f ks i).isOk = true := by
      intro i hi
      obtain ⟨p, hp', he⟩ := hmatch i hi
      rw [← he]
      exact hprevok p hp'
    rw [compare_data_eq_filter selfData prev dk ks et el f prevItems curItems
      hp hc hprevok hcurok]
    have hfilter : curItems.filter (fun i => !(prevItems.any (fun p =>
        projRecord f ks p == projRecord f ks i))) = [] := by
      rw [List.filter_eq_nil_iff]
      intro i hi
      obtain ⟨p, hp', he⟩ := hmatch i hi
      simp only [Bool.not_eq_true', Bool.not_eq_false, List.any_eq_true, beq_iff_eq]
      exact ⟨p, hp', he⟩
    rw [hfilter]
    rfl




/-- Witness for C7: the record pair differing only in the comment field is
classified as the same item, classification is unchanged under a formatter
that agrees on the comparison key, and the diff emits zero notifications. -/
theorem ed_c7_witness :
    (searchPrevious exFormat ["date"] c7Item [c7Prev] = Except.ok true ↔
      ∃ p ∈ [c7Prev], projRecord exFormat ["date"] p = projRecord exFormat ["date"] c7Item) ∧
    collectNew exFormat ["date"] [c7Prev] [c7Item] =
      collectNew c7AltFormat ["date"] [c7Prev] [c7Item] ∧
    compare_data { session := exSession, entries := [("jane doe_grades", [c7Item])] }
      (some { session := exSession, entries := [("jane doe_grades", [c7Prev])] })
      "jane doe_grades" ["date"] "new_grade" exEleve exFormat = [] := by
  refine ⟨ed_c7_identity_by_comparison_keys.1 exFormat ["date"] c7Item [c7Prev]
      (by decide) (by decide),
    ed_c7_identity_by_comparison_keys.2.1 exFormat c7AltFormat ["date"] [c7Prev] [c7Item] ?_,
    ed_c7_identity_by_comparison_keys.2.2 _ _ "jane doe_grades" ["date"] "new_grade"
      exEleve exFormat [c7Prev] [c7Item] (by decide) (by decide) (by decide) ?_⟩
  · intro r k hk
    simp only [List.mem_singleton] at hk
    subst hk
    simp [c7AltFormat, exFormat, lookupField, List.find?]
  · intro i hi
    simp only [List.mem_singleton] at hi
    subst hi
    exact ⟨c7Prev, by decide, by decide⟩

/-- C10: When the current sub-collection holds `k ≥ 2` records with pairwise
equal projections onto the comparison keys, none matched by a previous
record, the differ emits `k` notifications — one per record occurrence, not
one per distinct comparison-key value. -/
theorem ed_c10_duplicate_new_records (selfData prev : Snapshot) (dk : String)
    (ks : List String) (et : String) (el : EDEleve) (f : EDRecord → Fields)
    (prevItems curItems : List EDRecord) (v : List String)
    (hp : getEntry prev.entries dk = some prevItems)
    (hc : getEntry selfData.entries dk = some curItems)
    (hlen : 2 ≤ curItems.length)
    (hv : ∀ i ∈ curItems, projRecord f ks i = Except.ok v)
    (hprevok : ∀ p ∈ prevItems, (projRecord f ks p).isOk = true)
    (hnomatch : ∀ p ∈ prevItems, projRecord f ks p ≠ Except.ok v) :
    (compare_data selfData (some prev) dk ks et el f).length = curItems.length := by
  rw [compare_data_eq_filter selfData prev dk ks et el f prevItems curItems hp hc hprevok
    (fun i hi => by rw [hv i hi]; rfl)]
  have hfilter : curItems.filter (fun i => !(prevItems.any (fun p =>
      projRecord f ks p == projRecord f ks i))) = curItems := by
    apply List.filter_eq_self.mpr
    intro i hi
    simp only [hv i hi, Bool.not_eq_true', List.any_eq_false, beq_iff_eq]
    exact hnomatch
  rw [hfilter, List.length_map]



/-- Witness for C10: two duplicate new records yield two notifications. -/
theorem ed_c10_witness :
    (compare_data { session := exSession, entries := [("jane doe_grades", [c10CurA, c10CurB])] }
      (some { session := exSession, entries := [("jane doe_grades", [exGrade1])] })
      "jane doe_grades" ["date"] "new_grade" exEleve exFormat).length = 2 := by
  rw [ed_c10_duplicate_new_records _ _ "jane doe_grades" ["date"] "new_grade" exEleve exFormat
    [exGrade1] [c10CurA, c10CurB] ["2024-01-05"] (by decide) (by decide) (by decide)
    (by decide) (by decide) (by decide)]
  decide

/-- A key bound by no entry is absent. -/
lemma getEntry_eq_none (es : List (String × List EDRecord)) (k : String)
    (h : ∀ p ∈ es, ¬(p.1 = k)) : getEntry es k = none := by
  have hf : List.find? (fun p => p.1 == k) es = none :=
    List.find?_eq_none.mpr (fun p hp => by simp [beq_iff_eq]; exact h p hp)
  simp [getEntry, hf]

/-- Inserting a fresh key appends the binding. -/
lemma setEntry_append_of_none (es : List (String × List EDRecord)) (k : String)
    (v : List EDRecord) (h : getEntry es k = none) :
    setEntry es k v = es ++ [(k, v)] := by
  have hf : List.find? (fun p => p.1 == k) es = none := by
    cases hfind : List.find? (fun p => p.1 == k) es with
    | none => rfl
    | some p => simp [getEntry, hfind] at h
  rw [setEntry, if_neg]
  simp only [List.any_eq_true, not_exists]
  intro p
  intro hcontra
  obtain ⟨hp, hpk⟩ := hcontra
  have := List.find?_eq_none.mp hf p hp
  exact this hpk

/-- Lookup distributes over appended entry lists, preferring the left one. -/
lemma getEntry_append (es fs : List (String × List EDRecord)) (k : String) :
    getEntry (es ++ fs) k = (getEntry es k).or (getEntry fs k) := by
  unfold getEntry
  rw [List.find?_append]
  cases List.find? (fun p => p.1 == k) es <;> simp [Option.or]

/-- Appending a common prefix preserves inequality of string suffixes. -/
lemma key_suffix_ne (n : String) {a b : String} (h : ¬a.data = b.data) :
    ¬(n ++ a = n ++ b) := by
  intro heq
  apply h
  have h2 := congrArg String.data heq
  rw [String.data_append, String.data_append] at h2
  exact List.append_cancel_left h2

/-- `compare_data` reads the current snapshot only through the entry at
`data_key`: snapshots agreeing there produce the same events. -/
lemma compare_data_entry_congr (s1 s2 : Snapshot) (previous_data : Option Snapshot)
    (dk : String) (ks : List String) (et : String) (el : EDEleve)
    (f : EDRecord → Fields)
    (h : getEntry s1.entries dk = getEntry s2.entries dk) :
    compare_data s1 previous_data dk ks et el f =
      compare_data s2 previous_data dk ks et el f := by
  unfold compare_data
  rcases previous_data with _ | p
  · rfl
  · rw [h]

/-- Every homework-chunk entry is bound to the homework key. -/
lemma hwEntriesChunk_key (env : Env) (session : Session) (e : EDEleve) :
    ∀ p ∈ hwEntriesChunk env session e, p.1 = e.get_fullname_lower ++ "_homework" := by
  intro p hp
  unfold hwEntriesChunk at hp
  by_cases hm : "CAHIER_DE_TEXTES" ∈ e.modules
  · rw [if_pos hm] at hp
    rcases hw : env.get_homeworks session.token e env.config_dir with _ | v <;>
      rw [hw] at hp <;> simp at hp
    rw [hp]
  · rw [if_neg hm] at hp
    simp at hp

/-- Every grades-chunk entry is bound to the grades key. -/
lemma grEntriesChunk_key (env : Env) (year_data : String) (session : Session)
    (e : EDEleve) :
    ∀ p ∈ grEntriesChunk env year_data session e,
      p.1 = e.get_fullname_lower ++ "_grades" := by
  intro p hp
  unfold grEntriesChunk at hp
  by_cases hm : "NOTES" ∈ e.modules
  · rw [if_pos hm] at hp
    rcases hg : env.get_grades session.token e year_data env.config_dir with _ | v <;>
      rw [hg] at hp <;> simp at hp
    rw [hp]
  · rw [if_neg hm] at hp
    simp at hp

/-- Every lessons-chunk entry is bound to the lessons key. -/
lemma lsEntriesChunk_key (env : Env) (session : Session) (e : EDEleve) :
    ∀ p ∈ lsEntriesChunk env session e, p.1 = e.get_fullname_lower ++ "_lessons" := by
  intro p hp
  unfold lsEntriesChunk at hp
  by_cases hm : "EDT" ∈ e.modules
  · rw [if_pos hm] at hp
    rcases hl : env.get_lessons session.token e edtDateStart edtDateEnd with _ | v <;>
      rw [hl] at hp <;> simp at hp
    rw [hp]
  · rw [if_neg hm] at hp
    simp at hp

/-- Every entry contributed by an eleve is bound to one of its three keys. -/
lemma eleveEntries_key_mem (env : Env) (year_data : String) (session : Session)
    (e : EDEleve) :
    ∀ p ∈ eleveEntries env year_data session e, p.1 ∈ eleveKeys e := by
  intro p hp
  unfold eleveEntries at hp
  rcases List.mem_append.mp hp with hp' | hp'
  · rcases List.mem_append.mp hp' with hp'' | hp''
    · rw [hwEntriesChunk_key env session e p hp'']
      simp [eleveKeys]
    · rw [grEntriesChunk_key env year_data session e p hp'']
      simp [eleveKeys]
  · rw [lsEntriesChunk_key env session e p hp']
    simp [eleveKeys]

/-- The homework block appends exactly its chunk of entries and trace when
the homework key is fresh, and fires no events. -/
lemma homeworkBlock_spec (env : Env) (session : Session) (acc : TickAcc)
    (e : EDEleve)
    (h : getEntry acc.snap.entries (e.get_fullname_lower ++ "_homework") = none) :
    homeworkBlock env session acc e =
      { snap := { session := acc.snap.session,
                  entries := acc.snap.entries ++ hwEntriesChunk env session e }
        events := acc.events
        trace := acc.trace ++ hwTraceChunk env session e } := by
  by_cases hm : "CAHIER_DE_TEXTES" ∈ e.modules
  · rcases hw : env.get_homeworks session.token e env.config_dir with _ | hwv <;>
      simp [homeworkBlock, hwEntriesChunk, hwTraceChunk, hm, hw,
        setEntry_append_of_none _ _ _ h, Except.isOk, Except.toBool]
  · simp [homeworkBlock, hwEntriesChunk, hwTraceChunk, hm]

/-- The lessons block appends exactly its chunk of entries and trace when
the lessons key is fresh, and fires no events. -/
lemma lessonsBlock_spec (env : Env) (session : Session) (acc : TickAcc)
    (e : EDEleve)
    (h : getEntry acc.snap.entries (e.get_fullname_lower ++ "_lessons") = none) :
    lessonsBlock env session acc e =
      { snap := { session := acc.snap.session,
                  entries := acc.snap.entries ++ lsEntriesChunk env session e }
        events := acc.events
        trace := acc.trace ++ lsTraceChunk env session e } := by
  by_cases hm : "EDT" ∈ e.modules
  · rcases hl : env.get_lessons session.token e edtDateStart edtDateEnd with _ | lsv <;>
      simp [lessonsBlock, lsEntriesChunk, lsTraceChunk, hm, hl,
        setEntry_append_of_none _ _ _ h, Except.isOk, Except.toBool]
  · simp [lessonsBlock, lsEntriesChunk, lsTraceChunk, hm]

/-- The grades block appends exactly its chunk of entries and trace when the
grades key is fresh, and fires exactly the events of the diff of that
eleve's freshly fetched grades. -/
lemma gradesBlock_spec (env : Env) (previous_data : Option Snapshot)
    (year_data : String) (session : Session) (acc : TickAcc) (e : EDEleve)
    (h : getEntry acc.snap.entries (e.get_fullname_lower ++ "_grades") = none) :
    gradesBlock env previous_data year_data session acc e =
      { snap := { session := acc.snap.session,
                  entries := acc.snap.entries ++ grEntriesChunk env year_data session e }
        events := acc.events ++ eleveEvents env previous_data year_data session e
        trace := acc.trace ++ grTraceChunk env year_data session e } := by
  by_cases hm : "NOTES" ∈ e.modules
  · rcases hg : env.get_grades session.token e year_data env.config_dir with _ | gr
    · simp [gradesBlock, grEntriesChunk, grTraceChunk, eleveEvents, hm, hg]
    · have hcd : compare_data
          { session := acc.snap.session,
            entries := acc.snap.entries ++ [(e.get_fullname_lower ++ "_grades", gr)] }
          previous_data (e.get_fullname_lower ++ "_grades") gradeCompareKeys
          "new_grade" e env.format_grade =
          compare_data
            { session := session, entries := [(e.get_fullname_lower ++ "_grades", gr)] }
            previous_data (e.get_fullname_lower ++ "_grades") gradeCompareKeys
            "new_grade" e env.format_grade := by
        apply compare_data_entry_congr
        show getEntry (acc.snap.entries ++ [(e.get_fullname_lower ++ "_grades", gr)]) _ = _
        rw [getEntry_append, h]
        simp [Option.or]
      simp only [gradesBlock, if_pos hm, hg, setEntry_append_of_none _ _ _ h,
        gradeCompareKeys] at hcd ⊢
      rw [hcd]
      simp [grEntriesChunk, grTraceChunk, eleveEvents, hm, hg, gradeCompareKeys]
  · simp [gradesBlock, grEntriesChunk, grTraceChunk, eleveEvents, hm]

/-- Processing one eleve appends exactly its entries, events and trace to
the accumulated tick state when its three keys are fresh. -/
lemma processEleve_spec (env : Env) (previous_data : Option Snapshot)
    (year_data : String) (session : Session) (acc : TickAcc) (e : EDEleve)
    (h : ∀ k ∈ eleveKeys e, getEntry acc.snap.entries k = none) :
    processEleve env previous_data year_data session acc e =
      { snap := { session := acc.snap.session,
                  entries := acc.snap.entries ++ eleveEntries env year_data session e }
        events := acc.events ++ eleveEvents env previous_data year_data session e
        trace := acc.trace ++ eleveTrace env year_data session e } := by
  have h1 : getEntry acc.snap.entries (e.get_fullname_lower ++ "_homework") = none :=
    h _ (by simp [eleveKeys])
  have h2 : getEntry acc.snap.entries (e.get_fullname_lower ++ "_grades") = none :=
    h _ (by simp [eleveKeys])
  have h3 : getEntry acc.snap.entries (e.get_fullname_lower ++ "_lessons") = none :=
    h _ (by simp [eleveKeys])
  rw [processEleve, homeworkBlock_spec env session acc e h1]
  have hfr2 : getEntry (acc.snap.entries ++ hwEntriesChunk env session e)
      (e.get_fullname_lower ++ "_grades") = none := by
    rw [getEntry_append, h2]
    have hne : ∀ p ∈ hwEntriesChunk env session e,
        ¬(p.1 = e.get_fullname_lower ++ "_grades") := by
      intro p hp
      rw [hwEntriesChunk_key env session e p hp]
      exact key_suffix_ne _ (by decide)
    simp [Option.or, getEntry_eq_none _ _ hne]
  rw [gradesBlock_spec env previous_data year_data session _ e hfr2]
  have hfr3 : getEntry ((acc.snap.entries ++ hwEntriesChunk env session e) ++
      grEntriesChunk env year_data session e)
      (e.get_fullname_lower ++ "_lessons") = none := by
    rw [getEntry_append, getEntry_append, h3]
    have hne1 : ∀ p ∈ hwEntriesChunk env session e,
        ¬(p.1 = e.get_fullname_lower ++ "_lessons") := by
      intro p hp
      rw [hwEntriesChunk_key env session e p hp]
      exact key_suffix_ne _ (by decide)
    have hne2 : ∀ p ∈ grEntriesChunk env year_data session e,
        ¬(p.1 = e.get_fullname_lower ++ "_lessons") := by
      intro p hp
      rw [grEntriesChunk_key env year_data session e p hp]
      exact key_suffix_ne _ (by decide)
    simp [Option.or, getEntry_eq_none _ _ hne1, getEntry_eq_none _ _ hne2]
  rw [lessonsBlock_spec env session _ e hfr3]
  simp [eleveEntries, eleveTrace, List.append_assoc]

/-- The whole per-eleve loop appends, per eleve in order, exactly that
eleve's entries, events and trace, provided all contributed keys are
pairwise distinct and fresh for the initial state. -/
lemma foldl_processEleve_spec (env : Env) (previous_data : Option Snapshot)
    (year_data : String) (session : Session) (eleves : List EDEleve) :
    ∀ acc : TickAcc,
      (∀ e ∈ eleves, ∀ k ∈ eleveKeys e, getEntry acc.snap.entries k = none) →
      (eleves.flatMap eleveKeys).Pairwise (fun a b => a ≠ b) →
      eleves.foldl (processEleve env previous_data year_data session) acc =
        { snap := { session := acc.snap.session,
                    entries := acc.snap.entries ++
                      eleves.flatMap (eleveEntries env year_data session) }
          events := acc.events ++
            eleves.flatMap (eleveEvents env previous_data year_data session)
          trace := acc.trace ++ eleves.flatMap (eleveTrace env year_data session) } := by
  induction eleves with
  | nil => intro acc _ _; simp
  | cons e rest ih =>
    intro acc hfresh hkeys
    rw [List.flatMap_cons] at hkeys
    obtain ⟨hk1, hk2, hcross⟩ := List.pairwise_append.mp hkeys
    rw [List.foldl_cons,
      processEleve_spec env previous_data year_data session acc e (hfresh e (by simp))]
    have hfresh' : ∀ e' ∈ rest, ∀ k ∈ eleveKeys e',
        getEntry (acc.snap.entries ++ eleveEntries env year_data session e) k = none := by
      intro e' he' k hk
      rw [getEntry_append, hfresh e' (by simp [he']) k hk]
      have hne : ∀ p ∈ eleveEntries env year_data session e, ¬(p.1 = k) := by
        intro p hp
        have hpk : p.1 ∈ eleveKeys e := eleveEntries_key_mem env year_data session e p hp
        exact hcross p.1 hpk k (List.mem_flatMap.mpr ⟨e', he', hk⟩)
      simp [Option.or, getEntry_eq_none _ _ hne]
    rw [ih _ hfresh' hk2]
    simp [List.flatMap_cons, List.append_assoc]

/-- A key all of whose owner's contributed entries avoid it, and which is
cross-distinct from every other eleve's keys, is absent from the assembled
entries. -/
lemma getEntry_flatMap_none (env : Env) (year_data : String) (session : Session)
    (e : EDEleve) (k : String) (hk : k ∈ eleveKeys e)
    (habs : ∀ p ∈ eleveEntries env year_data session e, ¬(p.1 = k)) :
    ∀ eleves : List EDEleve,
      (eleves.flatMap eleveKeys).Pairwise (fun a b => a ≠ b) →
      e ∈ eleves →
      getEntry (eleves.flatMap (eleveEntries env year_data session)) k = none := by
  intro eleves
  induction eleves with
  | nil => intro _ h; cases h
  | cons e0 rest ih =>
    intro hkeys he
    rw [List.flatMap_cons] at hkeys
    obtain ⟨hk1, hk2, hcross⟩ := List.pairwise_append.mp hkeys
    rw [List.flatMap_cons, getEntry_append]
    rcases List.mem_cons.mp he with he0 | her
    · subst he0
      rw [getEntry_eq_none _ _ habs]
      have hrest : ∀ p ∈ rest.flatMap (eleveEntries env year_data session), ¬(p.1 = k) := by
        intro p hp heq
        obtain ⟨e', he', hp'⟩ := List.mem_flatMap.mp hp
        have hpk : p.1 ∈ eleveKeys e' := eleveEntries_key_mem env year_data session e' p hp'
        exact hcross k hk p.1 (List.mem_flatMap.mpr ⟨e', he', hpk⟩) heq.symm
      rw [getEntry_eq_none _ _ hrest]
      rfl
    · have h0 : ∀ p ∈ eleveEntries env year_data session e0, ¬(p.1 = k) := by
        intro p hp heq
        have hpk : p.1 ∈ eleveKeys e0 := eleveEntries_key_mem env year_data session e0 p hp
        exact hcross p.1 hpk k (List.mem_flatMap.mpr ⟨e, her, hk⟩) heq
      rw [getEntry_eq_none _ _ h0, ih hk2 her]
      rfl

/-- C3: With the session established and all eleve keys pairwise distinct,
the assembled snapshot and the fired events decompose per eleve and per
category — each category entry depends only on its own fetch and each diff
only on its own grades — and a category whose fetch raises leaves its key
absent from the snapshot while every other entry and diff is exactly as in
the decomposition. -/
theorem ed_c3_category_failure_isolation (env : Env) (selfData : Option Snapshot)
    (session : Session) (hs : env.get_session = some session)
    (hkeys : (session.eleves.flatMap eleveKeys).Pairwise (fun a b => a ≠ b)) :
    (updateData env selfData).newSelfData =
      some { session := session,
             entries := session.eleves.flatMap
               (eleveEntries env (yearData env.current_year) session) } ∧
    (updateData env selfData).events =
      session.eleves.flatMap
        (eleveEvents env selfData (yearData env.current_year) session) ∧
    (∀ e ∈ session.eleves, "CAHIER_DE_TEXTES" ∈ e.modules →
      env.get_homeworks session.token e env.config_dir = Except.error () →
      getEntry (session.eleves.flatMap
          (eleveEntries env (yearData env.current_year) session))
        (e.get_fullname_lower ++ "_homework") = none) ∧
    (∀ e ∈ session.eleves, "NOTES" ∈ e.modules →
      env.get_grades session.token e (yearData env.current_year) env.config_dir =
        Except.error () →
      getEntry (session.eleves.flatMap
          (eleveEntries env (yearData env.current_year) session))
        (e.get_fullname_lower ++ "_grades") = none) ∧
    (∀ e ∈ session.eleves, "EDT" ∈ e.modules →
      env.get_lessons session.token e edtDateStart edtDateEnd = Except.error () →
      getEntry (session.eleves.flatMap
          (eleveEntries env (yearData env.current_year) session))
        (e.get_fullname_lower ++ "_lessons") = none) := by
  have hupd := foldl_processEleve_spec env selfData (yearData env.current_year)
    session session.eleves
    { snap := { session := session, entries := [] }, events := [], trace := [] }
    (fun e _ k _ => rfl) hkeys
  refine ⟨?_, ?_, ?_, ?_, ?_⟩
  · simp [updateData, hs, hupd]
  · simp [updateData, hs, hupd]
  · intro e he hm herr
    apply getEntry_flatMap_none env _ session e _ (by simp [eleveKeys]) ?_
      session.eleves hkeys he
    intro p hp
    unfold eleveEntries at hp
    rcases List.mem_append.mp hp with hp' | hp'
    · rcases List.mem_append.mp hp' with hp'' | hp''
      · unfold hwEntriesChunk at hp''
        rw [if_pos hm, herr] at hp''
        cases hp''
      · rw [grEntriesChunk_key env _ session e p hp'']
        exact key_suffix_ne _ (by decide)
    · rw [lsEntriesChunk_key env session e p hp']
      exact key_suffix_ne _ (by decide)
  · intro e he hm herr
    apply getEntry_flatMap_none env _ session e _ (by simp [eleveKeys]) ?_
      session.eleves hkeys he
    intro p hp
    unfold eleveEntries at hp
    rcases List.mem_append.mp hp with hp' | hp'
    · rcases List.mem_append.mp hp' with hp'' | hp''
      · rw [hwEntriesChunk_key env session e p hp'']
        exact key_suffix_ne _ (by decide)
      · unfold grEntriesChunk at hp''
        rw [if_pos hm, herr] at hp''
        cases hp''
    · rw [lsEntriesChunk_key env session e p hp']
      exact key_suffix_ne _ (by decide)
  · intro e he hm herr
    apply getEntry_flatMap_none env _ session e _ (by simp [eleveKeys]) ?_
      session.eleves hkeys he
    intro p hp
    unfold eleveEntries at hp
    rcases List.mem_append.mp hp with hp' | hp'
    · rcases List.mem_append.mp hp' with hp'' | hp''
      · rw [hwEntriesChunk_key env session e p hp'']
        exact key_suffix_ne _ (by decide)
      · rw [grEntriesChunk_key env _ session e p hp'']
        exact key_suffix_ne _ (by decide)
    · unfold lsEntriesChunk at hp'
      rw [if_pos hm, herr] at hp'
      cases hp'

/-- Witness for C3 at a concrete two-student environment: the homework
fetch raises (key absent), the first student's grades diff still fires its
notification, the second student's failing grades fetch leaves only its key
absent, and lessons are stored. -/
theorem ed_c3_witness :
    (updateData edC3Env (some edC3Prev)).newSelfData =
      some { session := edC3Session,
             entries := [("jane doe_grades", [exGrade1, exGrade2]),
                         ("jane doe_lessons", [])] } ∧
    (updateData edC3Env (some edC3Prev)).events =
      [trigger_event "new_grade" exEleve exGrade2] ∧
    getEntry [("jane doe_grades", [exGrade1, exGrade2]), ("jane doe_lessons", [])]
      "jane doe_homework" = none ∧
    getEntry [("jane doe_grades", [exGrade1, exGrade2]), ("jane doe_lessons", [])]
      "john roe_grades" = none := by
  obtain ⟨h1, h2, h3, h4, h5⟩ := ed_c3_category_failure_isolation edC3Env
    (some edC3Prev) edC3Session rfl (by decide)
  exact ⟨h1.trans (by decide), h2.trans (by decide),
    h3 exEleve (by decide) (by decide) rfl,
    h4 edC3Eleve2 (by decide) (by decide) rfl⟩


/-- Processing one eleve touches the snapshot and the trace independently of
the grade formatting function (which feeds only the diff's events): two
environments agreeing on everything except `format_grade` march in
lockstep on those components. -/
lemma processEleve_agnostic (env₁ env₂ : Env)
    (hhw : env₁.get_homeworks = env₂.get_homeworks)
    (hgr : env₁.get_grades = env₂.get_grades)
    (hls : env₁.get_lessons = env₂.get_lessons)
    (hcd : env₁.config_dir = env₂.config_dir)
    (previous_data : Option Snapshot) (year_data : String) (session : Session)
    (e : EDEleve) (acc₁ acc₂ : TickAcc)
    (hsnap : acc₁.snap = acc₂.snap) (htrace : acc₁.trace = acc₂.trace) :
    (processEleve env₁ previous_data year_data session acc₁ e).snap =
      (processEleve env₂ previous_data year_data session acc₂ e).snap ∧
    (processEleve env₁ previous_data year_data session acc₁ e).trace =
      (processEleve env₂ previous_data year_data session acc₂ e).trace := by
  simp only [processEleve, lessonsBlock, gradesBlock, homeworkBlock, hhw, hgr, hls, hcd]
  by_cases h1 : "CAHIER_DE_TEXTES" ∈ e.modules <;>
    by_cases h2 : "NOTES" ∈ e.modules <;>
    by_cases h3 : "EDT" ∈ e.modules <;>
    rcases hfhw : env₂.get_homeworks session.token e env₂.config_dir with _ | hw <;>
    rcases hfgr : env₂.get_grades session.token e year_data env₂.config_dir with _ | gr <;>
    rcases hfls : env₂.get_lessons session.token e edtDateStart edtDateEnd with _ | ls <;>
    simp [h1, h2, h3, hfhw, hfgr, hfls, hsnap, htrace]

/-- The whole per-eleve loop builds the snapshot and the trace independently
of the grade formatting function. -/
lemma foldl_processEleve_agnostic (env₁ env₂ : Env)
    (hhw : env₁.get_homeworks = env₂.get_homeworks)
    (hgr : env₁.get_grades = env₂.get_grades)
    (hls : env₁.get_lessons = env₂.get_lessons)
    (hcd : env₁.config_dir = env₂.config_dir)
    (previous_data : Option Snapshot) (year_data : String) (session : Session)
    (eleves : List EDEleve) :
    ∀ acc₁ acc₂ : TickAcc, acc₁.snap = acc₂.snap → acc₁.trace = acc₂.trace →
      (eleves.foldl (processEleve env₁ previous_data year_data session) acc₁).snap =
        (eleves.foldl (processEleve env₂ previous_data year_data session) acc₂).snap ∧
      (eleves.foldl (processEleve env₁ previous_data year_data session) acc₁).trace =
        (eleves.foldl (processEleve env₂ previous_data year_data session) acc₂).trace := by
  induction eleves with
  | nil => intro a b ha hb; exact ⟨ha, hb⟩
  | cons e rest ih =>
    intro a b ha hb
    obtain ⟨hs, ht⟩ := processEleve_agnostic env₁ env₂ hhw hgr hls hcd
      previous_data year_data session e a b ha hb
    exact ih _ _ hs ht

/-- C4: Any exception during the comparison (here: a `KeyError` while
projecting a record onto the comparison keys) is caught by `compare_data`,
which then fires no events at all — aborting only that category's detection
for the tick — and the snapshot assembled and returned by the tick, the
coordinator state and the fetch/diff schedule do not depend on the grade
formatting function at all: a diff failure can never change or lose fetched
data, and `compare_data` returns to its caller normally. -/
theorem ed_c4_diff_exception_contained :
    (∀ (selfData prev : Snapshot) (dk : String) (ks : List String) (et : String)
        (el : EDEleve) (f : EDRecord → Fields)
        (previous_items current_items : List EDRecord),
      getEntry prev.entries dk = some previous_items →
      getEntry selfData.entries dk = some current_items →
      collectNew f ks previous_items current_items = Except.error () →
      compare_data selfData (some prev) dk ks et el f = []) ∧
    (∀ (env₁ env₂ : Env) (selfData : Option Snapshot),
      env₁.get_session = env₂.get_session →
      env₁.get_homeworks = env₂.get_homeworks →
      env₁.get_grades = env₂.get_grades →
      env₁.get_lessons = env₂.get_lessons →
      env₁.current_year = env₂.current_year →
      env₁.config_dir = env₂.config_dir →
      (updateData env₁ selfData).newSelfData = (updateData env₂ selfData).newSelfData ∧
      (updateData env₁ selfData).returned = (updateData env₂ selfData).returned ∧
      (updateData env₁ selfData).trace = (updateData env₂ selfData).trace) := by
  constructor
  · intro selfData prev dk ks et el f previous_items current_items hp hc herr
    simp [compare_data, hp, hc, herr]
  · intro env₁ env₂ selfData hsess hhw hgr hls hyear hcd
    rcases hs : env₂.get_session with _ | session
    · have hs1 : env₁.get_session = none := by rw [hsess, hs]
      simp [updateData, hs, hs1]
    · have hs1 : env₁.get_session = some session := by rw [hsess, hs]
      obtain ⟨h1, h2⟩ := foldl_processEleve_agnostic env₁ env₂ hhw hgr hls hcd
        selfData (yearData env₂.current_year) session session.eleves
        { snap := { session := session, entries := [] }, events := [], trace := [] }
        { snap := { session := session, entries := [] }, events := [], trace := [] }
        rfl rfl
      simp [updateData, hs, hs1, hyear, h1, h2]

/-- Witness for C4: a malformed record aborts the diff with zero events, and
a degenerate grade formatter never changes the snapshot, return value or
schedule of a concrete tick. -/
theorem ed_c4_witness :
    compare_data { session := exSession, entries := [("jane doe_grades", [c4Bad])] }
      (some { session := exSession, entries := [("jane doe_grades", [exGrade1])] })
      "jane doe_grades" gradeCompareKeys "new_grade" exEleve exFormat = [] ∧
    ((updateData edC4AltEnv (some edC3Prev)).newSelfData =
        (updateData edC6Env (some edC3Prev)).newSelfData ∧
      (updateData edC4AltEnv (some edC3Prev)).returned =
        (updateData edC6Env (some edC3Prev)).returned ∧
      (updateData edC4AltEnv (some edC3Prev)).trace =
        (updateData edC6Env (some edC3Prev)).trace) :=
  ⟨ed_c4_diff_exception_contained.1 _ _ "jane doe_grades" gradeCompareKeys "new_grade"
      exEleve exFormat [exGrade1] [c4Bad] (by decide) (by decide) (by decide),
    ed_c4_diff_exception_contained.2 edC4AltEnv edC6Env (some edC3Prev)
      rfl rfl rfl rfl rfl rfl⟩

/-- Counterexample to C6: in a tick with one student having homework,
grades and lessons modules all enabled and all fetches succeeding, the diff
invocation appears at position 2 of the trace, before the lessons fetch at
position 3 — so the differ is invoked before all of the entity's enabled
categories have been fetched and stored. -/
theorem ed_c6_counterexample :
    (updateData edC6Env none).trace =
      [TickAction.fetch "homework" "jane doe" true,
       TickAction.fetch "grades" "jane doe" true,
       TickAction.diffInvoke "grades" "jane doe",
       TickAction.fetch "lessons" "jane doe" true] ∧
    (updateData edC6Env none).trace[2]? =
      some (TickAction.diffInvoke "grades" "jane doe") ∧
    (updateData edC6Env none).trace[3]? =
      some (TickAction.fetch "lessons" "jane doe" true) := by
  refine ⟨by decide, by decide, by decide⟩

/-- C6 (amended): for an entity with grades and lessons modules enabled and
a successful grades fetch, the differ is invoked immediately after the
grades fetch is stored — after the homework block but before the lessons
fetch of that entity. -/
theorem ed_c6_diff_after_grades_before_lessons (env : Env)
    (previous_data : Option Snapshot) (year_data : String) (session : Session)
    (acc : TickAcc) (e : EDEleve)
    (hn : "NOTES" ∈ e.modules) (hl : "EDT" ∈ e.modules)
    (gr : List EDRecord)
    (hg : env.get_grades session.token e year_data env.config_dir = Except.ok gr) :
    ∃ pre b,
      (processEleve env previous_data year_data session acc e).trace =
        acc.trace ++ pre ++
          [TickAction.fetch "grades" e.get_fullname_lower true,
           TickAction.diffInvoke "grades" e.get_fullname_lower,
           TickAction.fetch "lessons" e.get_fullname_lower b] ∧
      (pre = [] ∨ ∃ hb, pre = [TickAction.fetch "homework" e.get_fullname_lower hb]) := by
  refine ⟨if "CAHIER_DE_TEXTES" ∈ e.modules then
      [TickAction.fetch "homework" e.get_fullname_lower
        (env.get_homeworks session.token e env.config_dir).isOk] else [],
    (env.get_lessons session.token e edtDateStart edtDateEnd).isOk, ?_, ?_⟩
  · by_cases hcdt : "CAHIER_DE_TEXTES" ∈ e.modules <;>
      rcases hhw : env.get_homeworks session.token e env.config_dir with _ | hw <;>
      rcases hls : env.get_lessons session.token e edtDateStart edtDateEnd with _ | ls <;>
      simp [processEleve, homeworkBlock, gradesBlock, lessonsBlock, hcdt, hn, hl, hg,
        hhw, hls, Except.isOk, Except.toBool, List.append_assoc]
  · by_cases hcdt : "CAHIER_DE_TEXTES" ∈ e.modules
    · exact Or.inr ⟨_, by rw [if_pos hcdt]⟩
    · exact Or.inl (by rw [if_neg hcdt])

/-- Witness for the amended C6 at a concrete environment and student with
all modules enabled. -/
theorem ed_c6_witness :
    ∃ pre b,
      (processEleve edC6Env none (yearData 2025) exSession
          { snap := { session := exSession, entries := [] }, events := [], trace := [] }
          exEleve).trace =
        ([] : List TickAction) ++ pre ++
          [TickAction.fetch "grades" exEleve.get_fullname_lower true,
           TickAction.diffInvoke "grades" exEleve.get_fullname_lower,
           TickAction.fetch "lessons" exEleve.get_fullname_lower b] ∧
      (pre = [] ∨ ∃ hb, pre = [TickAction.fetch "homework" exEleve.get_fullname_lower hb]) :=
  ed_c6_diff_after_grades_before_lessons edC6Env none (yearData 2025) exSession
    { snap := { session := exSession, entries := [] }, events := [], trace := [] }
    exEleve (by decide) (by decide) [exGrade1] rfl
